import Mathlib

/-!
Verification of the two static analyzers in `scripts/rule_calls.py` and
`scripts/test_functions.py`.

The Python abstract syntax tree is shallowly embedded: only the node kinds and
fields that the two scripts inspect are modeled; every node kind the scripts
never match is collapsed into an `other` constructor.  The parser (`ast.parse`)
and the file system are black boxes, so the process-level functions take the
parse result (`Except ParseError PyModule`) as an explicit argument.
-/

/-- A parse failure raised by the host parser (`ast.parse`).  The message is
opaque; the scripts never inspect it. -/
structure ParseError where
  msg : String
deriving Repr, DecidableEq

mutual

/-- Python expression nodes, restricted to the shapes the scripts inspect:
`ast.Name` (bare identifier), `ast.Attribute` (attribute access `value.attr`),
`ast.Str` (string literal), `ast.List` (list display, e.g. the value of a
`srcs` keyword), and `ast.Call` carrying its keyword arguments and its
1-based starting line number (`lineno`).  Any other expression kind is
`otherExpr`. -/
inductive PyExpr where
  | Name (id : String)
  | Attribute (value : PyExpr) (attr : String)
  | Str (s : String)
  | ListExpr (elts : List PyExpr)
  | Call (func : PyExpr) (keywords : List PyKeyword) (lineno : Nat)
  | otherExpr

/-- A keyword argument of a call: `arg` is the keyword name, or `none` for a
double-star argument (`**kwargs`), and `value` is the passed expression. -/
inductive PyKeyword where
  | mk (arg : Option String) (value : PyExpr)

end

/-- The keyword's name (`kw.arg` in Python), `none` for `**kwargs`. -/
def PyKeyword.arg : PyKeyword → Option String
  | .mk a _ => a

/-- The keyword's value expression (`kw.value` in Python). -/
def PyKeyword.value : PyKeyword → PyExpr
  | .mk _ v => v

/-- Python statement nodes, restricted to the shapes the scripts inspect:
`ast.Expr` (expression statement), `ast.ClassDef` (name, base expressions,
direct body statements, line), `ast.FunctionDef` and `ast.AsyncFunctionDef`
(name and 1-based starting line).  Any other statement kind is `otherStmt`. -/
inductive PyStmt where
  | Expr (value : PyExpr)
  | ClassDef (name : String) (bases : List PyExpr) (body : List PyStmt) (lineno : Nat)
  | FunctionDef (name : String) (lineno : Nat)
  | AsyncFunctionDef (name : String) (lineno : Nat)
  | otherStmt

/-- A parsed module: its top-level statement sequence (`module_ast.body`). -/
abbrev PyModule := List PyStmt

/-- Model of Python's `str.startswith`: character-list prefix test. -/
def startswith (s pre : String) : Bool :=
  List.isPrefixOf pre.toList s.toList

/-- One element of the list returned by `get_rule_calls`: the dict
`\x7b'id': ..., 'name': ..., 'line': ...\x7d` built in `rule_calls.py`. -/
structure CallRecord where
  id : String
  name : String
  line : Nat
deriving Repr, DecidableEq

/-- One element of the list returned by `get_test_functions`: the dict
`\x7b'id': ..., 'line': ...\x7d` built in `test_functions.py`. -/
structure TestFuncRecord where
  id : String
  line : Nat
deriving Repr, DecidableEq

/-- The keyword test of `rule_calls.py`:
`kw.arg == 'name' and isinstance(kw.value, ast.Str)`; on success the appended
dict is built from the enclosing call's function id and line. -/
def matchKeyword (fid : String) (line : Nat) (kw : PyKeyword) : Option CallRecord :=
  match kw with
  | .mk (some "name") (.Str s) => some { id := fid, name := s, line := line }
  | _ => none

/-- The inner loop of `get_rule_calls`: `for kw in stmt.value.keywords`,
appending to the accumulated `calls` list. -/
def ruleCallKwLoop (fid : String) (line : Nat) : List PyKeyword → List CallRecord → List CallRecord
  | [], calls => calls
  | kw :: rest, calls =>
      match matchKeyword fid line kw with
      | some r => ruleCallKwLoop fid line rest (calls ++ [r])
      | none => ruleCallKwLoop fid line rest calls

/-- The outer loop of `get_rule_calls`: `for stmt in module_ast.body`, with the
guard `isinstance(stmt, ast.Expr) and isinstance(stmt.value, ast.Call) and
isinstance(stmt.value.func, ast.Name)`. -/
def ruleCallStmtLoop : List PyStmt → List CallRecord → List CallRecord
  | [], calls => calls
  | stmt :: rest, calls =>
      match stmt with
      | .Expr (.Call (.Name fid) kws line) =>
          ruleCallStmtLoop rest (ruleCallKwLoop fid line kws calls)
      | _ => ruleCallStmtLoop rest calls

/-- `get_rule_calls` of `rule_calls.py`, applied to the parsed module:
starts with `calls = []` and runs the two nested loops. -/
def get_rule_calls (module_ast : PyModule) : List CallRecord :=
  ruleCallStmtLoop module_ast []

/-- The base test of `test_functions.py`:
`isinstance(base, ast.Attribute) and base.attr == 'TestCase' and
isinstance(base.value, ast.Name) and (base.value.id == 'unittest' or
base.value.id == 'asynctest')`. -/
def isTestCaseBase (base : PyExpr) : Bool :=
  match base with
  | .Attribute (.Name x) a => a == "TestCase" && (x == "unittest" || x == "asynctest")
  | _ => false

/-- The inner-statement test of `test_functions.py`:
`(isinstance(inner_stmt, ast.FunctionDef) or isinstance(inner_stmt,
ast.AsyncFunctionDef)) and inner_stmt.name.startswith('test')`; on success the
appended dict carries the function's name and line. -/
def testFuncOfInner (inner : PyStmt) : Option TestFuncRecord :=
  match inner with
  | .FunctionDef n line => if startswith n "test" then some { id := n, line := line } else none
  | .AsyncFunctionDef n line => if startswith n "test" then some { id := n, line := line } else none
  | _ => none

/-- The innermost loop of `get_test_functions`: `for inner_stmt in stmt.body`,
appending to the accumulated `funcs` list. -/
def testFuncInnerLoop : List PyStmt → List TestFuncRecord → List TestFuncRecord
  | [], funcs => funcs
  | inner :: rest, funcs =>
      match testFuncOfInner inner with
      | some r => testFuncInnerLoop rest (funcs ++ [r])
      | none => testFuncInnerLoop rest funcs

/-- The middle loop of `get_test_functions`: `for base in stmt.bases`; each
base matching the `TestCase` shape runs the body loop once (there is no
`break` in the source). -/
def testFuncBaseLoop (body : List PyStmt) : List PyExpr → List TestFuncRecord → List TestFuncRecord
  | [], funcs => funcs
  | base :: rest, funcs =>
      if isTestCaseBase base then
        testFuncBaseLoop body rest (testFuncInnerLoop body funcs)
      else
        testFuncBaseLoop body rest funcs

/-- The outer loop of `get_test_functions`: `for stmt in module_ast.body`, with
the guard `isinstance(stmt, ast.ClassDef)`. -/
def testFuncStmtLoop : List PyStmt → List TestFuncRecord → List TestFuncRecord
  | [], funcs => funcs
  | stmt :: rest, funcs =>
      match stmt with
      | .ClassDef _ bases body _ => testFuncStmtLoop rest (testFuncBaseLoop body bases funcs)
      | _ => testFuncStmtLoop rest funcs

/-- `get_test_functions` of `test_functions.py`, applied to the parsed module:
starts with `funcs = []` and runs the three nested loops. -/
def get_test_functions (module_ast : PyModule) : List TestFuncRecord :=
  testFuncStmtLoop module_ast []

/-- Records contributed by one top-level statement of `rule_calls.py`
(declarative form of the loop body, used to characterize the loops). -/
def ruleCallRecordsOfStmt (stmt : PyStmt) : List CallRecord :=
  match stmt with
  | .Expr (.Call (.Name fid) kws line) => kws.filterMap (matchKeyword fid line)
  | _ => []

/-- Records of one class body scanned once (declarative form). -/
def classTestRecords (body : List PyStmt) : List TestFuncRecord :=
  body.filterMap testFuncOfInner

/-- Records contributed by one top-level statement of `test_functions.py`:
one body scan per base matching the `TestCase` shape (declarative form). -/
def testRecordsOfStmt (stmt : PyStmt) : List TestFuncRecord :=
  match stmt with
  | .ClassDef _ bases body _ =>
      bases.flatMap (fun b => if isTestCaseBase b then classTestRecords body else [])
  | _ => []

/-- The extractor pipeline of `rule_calls.py` from the parse result onward:
`ast.parse` failure is not caught, so a parse error propagates unchanged. -/
def ruleCallsOfParse (parsed : Except ParseError PyModule) : Except ParseError (List CallRecord) :=
  match parsed with
  | .error e => .error e
  | .ok m => .ok (get_rule_calls m)

/-- The extractor pipeline of `test_functions.py` from the parse result
onward; a parse error propagates unchanged. -/
def testFunctionsOfParse (parsed : Except ParseError PyModule) : Except ParseError (List TestFuncRecord) :=
  match parsed with
  | .error e => .error e
  | .ok m => .ok (get_test_functions m)

/-- Model of `json.dumps` escaping for one character (ASCII subset relevant
here; the JSON encoder itself is a black box per the design). -/
def jsonEscapeChar (c : Char) : String :=
  if c = '\\' then "\\\\"
  else if c = '"' then "\\\""
  else String.singleton c

/-- Model of `json.dumps` for a string value. -/
def jsonStr (s : String) : String :=
  "\"" ++ String.join (s.toList.map jsonEscapeChar) ++ "\""

/-- Model of `json.dumps` for one rule-call dict, with Python's default
separators. -/
def jsonCallRecord (r : CallRecord) : String :=
  "\x7b\"id\": " ++ jsonStr r.id ++ ", \"name\": " ++ jsonStr r.name
    ++ ", \"line\": " ++ toString r.line ++ "\x7d"

/-- Model of `json.dumps` for the rule-call list. -/
def jsonCallList (rs : List CallRecord) : String :=
  "[" ++ String.intercalate ", " (rs.map jsonCallRecord) ++ "]"

/-- Model of `json.dumps` for one test-function dict. -/
def jsonTestRecord (r : TestFuncRecord) : String :=
  "\x7b\"id\": " ++ jsonStr r.id ++ ", \"line\": " ++ toString r.line ++ "\x7d"

/-- Model of `json.dumps` for the test-function list. -/
def jsonTestList (rs : List TestFuncRecord) : String :=
  "[" ++ String.intercalate ", " (rs.map jsonTestRecord) ++ "]"

/-- Observable outcome of one process run: either a normal exit with the lines
printed to standard output and an exit status, or an uncaught error (the
runtime prints a traceback to standard error and exits nonzero; nothing
reaches standard output). -/
inductive RunOutcome where
  | exited (stdoutLines : List String) (code : Nat)
  | uncaughtError (e : ParseError)
deriving Repr, DecidableEq

/-- The `__main__` block of `rule_calls.py`.  `argv` models `sys.argv`
(program name first); `parsed` models the result of reading and parsing the
file named by `sys.argv[1]`.  The argument-count check runs before any file
access. -/
def mainRuleCalls (argv : List String) (parsed : Except ParseError PyModule) : RunOutcome :=
  if argv.length ≠ 2 then
    .exited ["Error: A BUILD filename is required."] 1
  else
    match ruleCallsOfParse parsed with
    | .error e => .uncaughtError e
    | .ok rs => .exited [jsonCallList rs] 0

/-- The `__main__` block of `test_functions.py`, analogous to
`mainRuleCalls`. -/
def mainTestFunctions (argv : List String) (parsed : Except ParseError PyModule) : RunOutcome :=
  if argv.length ≠ 2 then
    .exited ["Error: A file is required."] 1
  else
    match testFunctionsOfParse parsed with
    | .error e => .uncaughtError e
    | .ok rs => .exited [jsonTestList rs] 0

/-- Modelled from the spec: the stream-form (Mode B) variant of the rule-call
tool is a duplicate variant of the script that is not present under `src/`.
Per §6 of the design, with no command-line arguments it reads all of standard
input until end-of-stream, runs the extractor on that text, prints the JSON
array to standard output and exits 0; `parsed` models the result of
`ast.parse` on the aggregated standard-input text, and a parse failure is
uncaught as in the argument form. -/
def streamMainRuleCalls (parsed : Except ParseError PyModule) : RunOutcome :=
  match ruleCallsOfParse parsed with
  | .error e => .uncaughtError e
  | .ok rs => .exited [jsonCallList rs] 0

/-- Modelled from the spec: the stream-form (Mode B) variant of the
test-function tool, not present under `src/`; reads all of standard input,
runs the extractor, prints the JSON array and exits 0. -/
def streamMainTestFunctions (parsed : Except ParseError PyModule) : RunOutcome :=
  match testFunctionsOfParse parsed with
  | .error e => .uncaughtError e
  | .ok rs => .exited [jsonTestList rs] 0

/-- Output order property claimed by the spec: `line` fields strictly increase
whenever two records do not share a source line. -/
def LinewiseOrdered (lines : List Nat) : Prop :=
  List.Pairwise (fun a b => a ≠ b → a < b) lines

/-- The test records of a class statement's body scanned exactly once,
regardless of how many bases match (used to state the parser-order
hypotheses of the ordering claim). -/
def classOnceRecords (stmt : PyStmt) : List TestFuncRecord :=
  match stmt with
  | .ClassDef _ _ body _ => classTestRecords body
  | _ => []

/-- How many base expressions of a statement match the `TestCase` shape
(zero for anything but a class definition). -/
def matchingBaseCount (stmt : PyStmt) : Nat :=
  match stmt with
  | .ClassDef _ bases _ _ => bases.countP isTestCaseBase
  | _ => 0

/-- The keyword loop appends its matches, in keyword order, after the
accumulated list. -/
theorem ruleCallKwLoop_eq (fid : String) (line : Nat) (kws : List PyKeyword)
    (acc : List CallRecord) :
    ruleCallKwLoop fid line kws acc = acc ++ kws.filterMap (matchKeyword fid line) := by
  induction kws generalizing acc with
  | nil => simp [ruleCallKwLoop]
  | cons kw rest ih =>
      cases h : matchKeyword fid line kw with
      | some r => simp [ruleCallKwLoop, h, ih]
      | none => simp [ruleCallKwLoop, h, ih]

/-- The statement loop appends each statement's matches, in statement order,
after the accumulated list. -/
theorem ruleCallStmtLoop_eq (stmts : List PyStmt) (acc : List CallRecord) :
    ruleCallStmtLoop stmts acc = acc ++ stmts.flatMap ruleCallRecordsOfStmt := by
  induction stmts generalizing acc with
  | nil => simp [ruleCallStmtLoop]
  | cons stmt rest ih =>
      cases stmt with
      | Expr v =>
          cases v with
          | Call f kws line =>
              cases f with
              | Name fid =>
                  simp [ruleCallStmtLoop, ih, ruleCallKwLoop_eq, ruleCallRecordsOfStmt]
              | _ => simp [ruleCallStmtLoop, ih, ruleCallRecordsOfStmt]
          | _ => simp [ruleCallStmtLoop, ih, ruleCallRecordsOfStmt]
      | _ => simp [ruleCallStmtLoop, ih, ruleCallRecordsOfStmt]

/-- Declarative characterization of `get_rule_calls`: the records of each
top-level statement, concatenated in statement order. -/
theorem get_rule_calls_eq (m : PyModule) :
    get_rule_calls m = m.flatMap ruleCallRecordsOfStmt := by
  simp [get_rule_calls, ruleCallStmtLoop_eq]

/-- The class-body loop appends one body scan after the accumulated list. -/
theorem testFuncInnerLoop_eq (body : List PyStmt) (acc : List TestFuncRecord) :
    testFuncInnerLoop body acc = acc ++ classTestRecords body := by
  induction body generalizing acc with
  | nil => simp [testFuncInnerLoop, classTestRecords]
  | cons inner rest ih =>
      cases h : testFuncOfInner inner with
      | some r => simp [testFuncInnerLoop, h, ih, classTestRecords]
      | none => simp [testFuncInnerLoop, h, ih, classTestRecords]

/-- The base loop appends one body scan per matching base, in base order. -/
theorem testFuncBaseLoop_eq (body : List PyStmt) (bases : List PyExpr)
    (acc : List TestFuncRecord) :
    testFuncBaseLoop body bases acc
      = acc ++ bases.flatMap (fun b => if isTestCaseBase b then classTestRecords body else []) := by
  induction bases generalizing acc with
  | nil => simp [testFuncBaseLoop]
  | cons base rest ih =>
      by_cases h : isTestCaseBase base
      · simp [testFuncBaseLoop, h, ih, testFuncInnerLoop_eq]
      · simp [testFuncBaseLoop, h, ih]

/-- The statement loop appends each statement's test records in order. -/
theorem testFuncStmtLoop_eq (stmts : List PyStmt) (acc : List TestFuncRecord) :
    testFuncStmtLoop stmts acc = acc ++ stmts.flatMap testRecordsOfStmt := by
  induction stmts generalizing acc with
  | nil => simp [testFuncStmtLoop]
  | cons stmt rest ih =>
      cases stmt with
      | ClassDef nm bases body ln =>
          simp [testFuncStmtLoop, ih, testFuncBaseLoop_eq, testRecordsOfStmt]
      | _ => simp [testFuncStmtLoop, ih, testRecordsOfStmt]

/-- Declarative characterization of `get_test_functions`. -/
theorem get_test_functions_eq (m : PyModule) :
    get_test_functions m = m.flatMap testRecordsOfStmt := by
  simp [get_test_functions, testFuncStmtLoop_eq]

/-- A guarded flat map over the bases replicates the body scan once per
matching base. -/
theorem flatMap_guard_replicate (bases : List PyExpr) (L : List TestFuncRecord) :
    bases.flatMap (fun b => if isTestCaseBase b then L else [])
      = (List.replicate (bases.countP isTestCaseBase) L).flatten := by
  induction bases with
  | nil => simp
  | cons base rest ih =>
      by_cases h : isTestCaseBase base
      · simp [h, ih, List.countP_cons, List.replicate_succ]
      · simp [h, ih, List.countP_cons]

/-- Claim C2: each tool's stream mode reads all of standard input, runs its
extractor on that text, prints the resulting JSON array to standard output,
and exits with status 0 (modelled from the spec, Mode B of §6). -/
theorem c2_stream_mode :
    ∀ m : PyModule,
      streamMainRuleCalls (.ok m) = .exited [jsonCallList (get_rule_calls m)] 0
      ∧ streamMainTestFunctions (.ok m) = .exited [jsonTestList (get_test_functions m)] 0 := by
  intro m
  exact ⟨rfl, rfl⟩

/-- Claim C3: a qualifying top-level call with several keyword arguments named
`name` with string-literal values yields one Call Record per such keyword, in
keyword encounter order, each carrying the called identifier, the string
value, and the call's starting line (there is no break on first match). -/
theorem c3_record_per_name_keyword :
    (∀ (fid : String) (kws : List PyKeyword) (line : Nat),
        get_rule_calls [PyStmt.Expr (.Call (.Name fid) kws line)]
          = kws.filterMap (matchKeyword fid line))
    ∧ get_rule_calls
        [PyStmt.Expr (.Call (.Name "go_library")
          [.mk (some "name") (.Str "first"),
           .mk (some "deps") (.ListExpr []),
           .mk (some "name") (.Str "second")] 4)]
      = [{ id := "go_library", name := "first", line := 4 },
         { id := "go_library", name := "second", line := 4 }] := by
  constructor
  · intro fid kws line
    simp [get_rule_calls_eq, ruleCallRecordsOfStmt]
  · rfl

/-- Claim C5: a parse error is not caught by either extractor: it propagates
unchanged through the pipeline and the process boundary, no partial or empty
result is returned, and no JSON reaches standard output. -/
theorem c5_parse_error_propagates :
    ∀ (e : ParseError) (argv : List String),
      ruleCallsOfParse (.error e) = .error e
      ∧ testFunctionsOfParse (.error e) = .error e
      ∧ (argv.length = 2 → mainRuleCalls argv (.error e) = .uncaughtError e)
      ∧ (argv.length = 2 → mainTestFunctions argv (.error e) = .uncaughtError e)
      ∧ streamMainRuleCalls (.error e) = .uncaughtError e
      ∧ streamMainTestFunctions (.error e) = .uncaughtError e := by
  intro e argv
  refine ⟨rfl, rfl, ?_, ?_, rfl, rfl⟩
  · intro h
    simp [mainRuleCalls, h, ruleCallsOfParse]
  · intro h
    simp [mainTestFunctions, h, testFunctionsOfParse]

/-- Witness for C5 at a concrete parse error and argument vector. -/
theorem c5_parse_error_propagates_witness :
    mainRuleCalls ["rule_calls.py", "BUILD"] (.error ⟨"invalid syntax"⟩)
      = .uncaughtError ⟨"invalid syntax"⟩
    ∧ mainTestFunctions ["test_functions.py", "calc_test.py"] (.error ⟨"invalid syntax"⟩)
      = .uncaughtError ⟨"invalid syntax"⟩ :=
  ⟨(c5_parse_error_propagates ⟨"invalid syntax"⟩ ["rule_calls.py", "BUILD"]).2.2.1 (by decide),
   (c5_parse_error_propagates ⟨"invalid syntax"⟩ ["test_functions.py", "calc_test.py"]).2.2.2.1
     (by decide)⟩

/-- Claim C6: invoked with an argument count other than exactly one (i.e.
`sys.argv` of length other than two), each tool prints its fixed usage line to
standard output and exits with status 1, producing no JSON output. -/
theorem c6_usage_error :
    ∀ (argv : List String) (parsed : Except ParseError PyModule),
      argv.length ≠ 2 →
        mainRuleCalls argv parsed = .exited ["Error: A BUILD filename is required."] 1
        ∧ mainTestFunctions argv parsed = .exited ["Error: A file is required."] 1 := by
  intro argv parsed h
  exact ⟨by simp [mainRuleCalls, h], by simp [mainTestFunctions, h]⟩

/-- Witness for C6: no argument for one tool, two arguments for the other. -/
theorem c6_usage_error_witness :
    mainRuleCalls ["rule_calls.py"] (.ok [])
      = .exited ["Error: A BUILD filename is required."] 1
    ∧ mainTestFunctions ["test_functions.py", "a.py", "b.py"] (.ok [])
      = .exited ["Error: A file is required."] 1 :=
  ⟨(c6_usage_error ["rule_calls.py"] (.ok []) (by decide)).1,
   (c6_usage_error ["test_functions.py", "a.py", "b.py"] (.ok []) (by decide)).2⟩

/-- Claim C7: on the BUILD snippet `python_test(name = "calc_test",
srcs = ["calc_test.py"],)` starting at line 1, the extractor returns exactly
the record with id `python_test`, name `calc_test`, line 1, and the emitted
JSON is the corresponding one-object array. -/
theorem c7_scenario_python_test :
    get_rule_calls
        [PyStmt.Expr (.Call (.Name "python_test")
          [.mk (some "name") (.Str "calc_test"),
           .mk (some "srcs") (.ListExpr [.Str "calc_test.py"])] 1)]
      = [{ id := "python_test", name := "calc_test", line := 1 }]
    ∧ jsonCallList (get_rule_calls
        [PyStmt.Expr (.Call (.Name "python_test")
          [.mk (some "name") (.Str "calc_test"),
           .mk (some "srcs") (.ListExpr [.Str "calc_test.py"])] 1)])
      = "[\x7b\"id\": \"python_test\", \"name\": \"calc_test\", \"line\": 1\x7d]" := by
  exact ⟨rfl, rfl⟩

/-- Claim C9: both extractors and both tool entry points are deterministic
pure functions of the parsed input: equal inputs give equal outputs (and hence
byte-identical JSON), with no side effects beyond the returned value. -/
theorem c9_deterministic :
    ∀ (p q : Except ParseError PyModule) (argv : List String),
      p = q →
        ruleCallsOfParse p = ruleCallsOfParse q
        ∧ testFunctionsOfParse p = testFunctionsOfParse q
        ∧ mainRuleCalls argv p = mainRuleCalls argv q
        ∧ mainTestFunctions argv p = mainTestFunctions argv q
        ∧ streamMainRuleCalls p = streamMainRuleCalls q
        ∧ streamMainTestFunctions p = streamMainTestFunctions q := by
  intro p q argv h
  subst h
  exact ⟨rfl, rfl, rfl, rfl, rfl, rfl⟩

/-- Witness for C9 at a concrete parse result. -/
theorem c9_deterministic_witness :
    ruleCallsOfParse (.ok []) = ruleCallsOfParse (.ok [])
    ∧ testFunctionsOfParse (.ok []) = testFunctionsOfParse (.ok [])
    ∧ mainRuleCalls ["rule_calls.py", "BUILD"] (.ok [])
        = mainRuleCalls ["rule_calls.py", "BUILD"] (.ok [])
    ∧ mainTestFunctions ["rule_calls.py", "BUILD"] (.ok [])
        = mainTestFunctions ["rule_calls.py", "BUILD"] (.ok [])
    ∧ streamMainRuleCalls (.ok []) = streamMainRuleCalls (.ok [])
    ∧ streamMainTestFunctions (.ok []) = streamMainTestFunctions (.ok []) :=
  c9_deterministic (.ok []) (.ok []) ["rule_calls.py", "BUILD"] rfl

/-- Claim C10: a double-star argument (`**kwargs`, a keyword node whose name
is `none`) never matches the literal keyword name `name`, raises no error, and
contributes no record, while the other keywords of the same call are still
extracted. -/
theorem c10_doublestar_kwargs :
    ∀ (fid : String) (line : Nat) (v : PyExpr) (kws1 kws2 : List PyKeyword),
      matchKeyword fid line (.mk none v) = none
      ∧ get_rule_calls [PyStmt.Expr (.Call (.Name fid) (kws1 ++ .mk none v :: kws2) line)]
          = get_rule_calls [PyStmt.Expr (.Call (.Name fid) (kws1 ++ kws2) line)] := by
  intro fid line v kws1 kws2
  have hnone : matchKeyword fid line (.mk none v) = none := by
    cases v <;> rfl
  refine ⟨hnone, ?_⟩
  simp [get_rule_calls_eq, ruleCallRecordsOfStmt, List.filterMap_append, List.filterMap_cons,
    hnone]

/-- Counterexample to C1: a class whose base list matches the `TestCase`
shape twice (`class T(unittest.TestCase, asynctest.TestCase)`) has one
qualifying test method but the extractor emits two records for it, because
the source loops over all bases without a break. -/
theorem c1_counterexample :
    get_test_functions
        [PyStmt.ClassDef "T"
          [.Attribute (.Name "unittest") "TestCase",
           .Attribute (.Name "asynctest") "TestCase"]
          [.FunctionDef "test_a" 2] 1]
      = [{ id := "test_a", line := 2 }, { id := "test_a", line := 2 }]
    ∧ (get_test_functions
        [PyStmt.ClassDef "T"
          [.Attribute (.Name "unittest") "TestCase",
           .Attribute (.Name "asynctest") "TestCase"]
          [.FunctionDef "test_a" 2] 1]).length ≠ 1 := by
  exact ⟨rfl, by decide⟩

/-- Claim C1 amended: for a top-level class the extractor emits one
Test-Function Record per qualifying test method **per matching base
expression** — the whole class body is scanned once for each base matching
the `TestCase` shape; in particular, when exactly one base matches, each
qualifying method yields exactly one record. -/
theorem c1_records_per_matching_base :
    ∀ (nm : String) (bases : List PyExpr) (body : List PyStmt) (ln : Nat),
      get_test_functions [PyStmt.ClassDef nm bases body ln]
        = (List.replicate (bases.countP isTestCaseBase) (classTestRecords body)).flatten
      ∧ (bases.countP isTestCaseBase = 1 →
          get_test_functions [PyStmt.ClassDef nm bases body ln] = classTestRecords body) := by
  intro nm bases body ln
  have h : get_test_functions [PyStmt.ClassDef nm bases body ln]
      = bases.flatMap (fun b => if isTestCaseBase b then classTestRecords body else []) := by
    simp [get_test_functions_eq, testRecordsOfStmt]
  constructor
  · rw [h, flatMap_guard_replicate]
  · intro h1
    rw [h, flatMap_guard_replicate, h1]
    simp

/-- Witness for C1 (amended) at a single-base test-case class. -/
theorem c1_records_per_matching_base_witness :
    get_test_functions
        [PyStmt.ClassDef "CalcTest" [.Attribute (.Name "unittest") "TestCase"]
          [.FunctionDef "test_add" 2] 1]
      = classTestRecords [.FunctionDef "test_add" 2] :=
  (c1_records_per_matching_base "CalcTest" [.Attribute (.Name "unittest") "TestCase"]
    [.FunctionDef "test_add" 2] 1).2 (by decide)

/-- Claim C8: structurally non-matching shapes produce zero records and no
error: a top-level call to an attribute-accessed function yields nothing, a
`name` keyword with a non-string-literal value yields nothing, a class with no
`TestCase`-shaped base yields nothing, a method whose name does not start with
`test` is omitted, and both extractors return normally on every parseable
input. -/
theorem c8_nonmatching_shapes :
    (∀ (v : PyExpr) (a : String) (kws : List PyKeyword) (line : Nat),
        get_rule_calls [PyStmt.Expr (.Call (.Attribute v a) kws line)] = [])
    ∧ (∀ (fid : String) (line : Nat) (v : PyExpr),
        (∀ s, v ≠ PyExpr.Str s) → matchKeyword fid line (.mk (some "name") v) = none)
    ∧ (∀ (nm : String) (bases : List PyExpr) (body : List PyStmt) (ln : Nat),
        (∀ b ∈ bases, isTestCaseBase b = false) →
          get_test_functions [PyStmt.ClassDef nm bases body ln] = [])
    ∧ (∀ (n : String) (ln : Nat), startswith n "test" = false →
        testFuncOfInner (.FunctionDef n ln) = none
          ∧ testFuncOfInner (.AsyncFunctionDef n ln) = none)
    ∧ (∀ m : PyModule,
        ruleCallsOfParse (.ok m) = .ok (get_rule_calls m)
        ∧ testFunctionsOfParse (.ok m) = .ok (get_test_functions m)) := by
  refine ⟨?_, ?_, ?_, ?_, ?_⟩
  · intro v a kws line
    simp [get_rule_calls_eq, ruleCallRecordsOfStmt]
  · intro fid line v h
    cases v with
    | Str s => exact absurd rfl (h s)
    | Name i => rfl
    | Attribute w a => rfl
    | ListExpr es => rfl
    | Call f kws ln => rfl
    | otherExpr => rfl
  · intro nm bases body ln h
    rw [get_test_functions_eq]
    simp only [List.flatMap_cons, List.flatMap_nil, List.append_nil, testRecordsOfStmt]
    rw [List.flatMap_eq_nil_iff]
    intro b hb
    simp [h b hb]
  · intro n ln h
    exact ⟨by simp [testFuncOfInner, h], by simp [testFuncOfInner, h]⟩
  · intro m
    exact ⟨rfl, rfl⟩

/-- Witness for C8 at concrete non-matching shapes. -/
theorem c8_nonmatching_shapes_witness :
    get_rule_calls
        [PyStmt.Expr (.Call (.Attribute (.Name "pkg") "rule")
          [.mk (some "name") (.Str "x")] 1)] = []
    ∧ matchKeyword "foo" 2 (.mk (some "name") (.Name "some_var")) = none
    ∧ get_test_functions
        [PyStmt.ClassDef "Foo" [.Attribute (.Name "Bar") "TestCase"]
          [.FunctionDef "test_a" 2] 1] = []
    ∧ (testFuncOfInner (.FunctionDef "helper" 4) = none
        ∧ testFuncOfInner (.AsyncFunctionDef "setUp" 5) = none)
    ∧ (ruleCallsOfParse (.ok []) = .ok (get_rule_calls [])
        ∧ testFunctionsOfParse (.ok []) = .ok (get_test_functions [])) :=
  ⟨c8_nonmatching_shapes.1 (.Name "pkg") "rule" [.mk (some "name") (.Str "x")] 1,
   c8_nonmatching_shapes.2.1 "foo" 2 (.Name "some_var") (fun _ h => PyExpr.noConfusion h),
   c8_nonmatching_shapes.2.2.1 "Foo" [.Attribute (.Name "Bar") "TestCase"]
     [.FunctionDef "test_a" 2] 1 (by decide),
   c8_nonmatching_shapes.2.2.2.1 "helper" 4 (by decide),
   c8_nonmatching_shapes.2.2.2.2 []⟩

/-- Every record produced by the keyword test carries the enclosing call's
line number. -/
theorem matchKeyword_line_eq (fid : String) (line : Nat) (kw : PyKeyword) (r : CallRecord)
    (h : matchKeyword fid line kw = some r) : r.line = line := by
  unfold matchKeyword at h
  split at h
  · injection h with h2
    subst h2
    rfl
  · exact Option.noConfusion h

/-- All records extracted from one call's keyword list share the call's
line. -/
theorem filterMap_matchKeyword_line (fid : String) (line : Nat) (kws : List PyKeyword) :
    ∀ a ∈ kws.filterMap (matchKeyword fid line), a.line = line := by
  intro a ha
  rcases List.mem_filterMap.mp ha with ⟨kw, _, h⟩
  exact matchKeyword_line_eq fid line kw a h

/-- The records of a single top-level statement of the rule-call extractor are
pairwise line-monotone (they all share one line). -/
theorem ruleCallRecords_pairwise_le (stmt : PyStmt) :
    List.Pairwise (fun a b : CallRecord => a.line ≤ b.line) (ruleCallRecordsOfStmt stmt) := by
  unfold ruleCallRecordsOfStmt
  split
  · apply List.pairwise_of_forall_mem_list
    intro a ha b hb
    rw [filterMap_matchKeyword_line _ _ _ a ha, filterMap_matchKeyword_line _ _ _ b hb]
  · exact List.Pairwise.nil

/-- Every emitted test record of a statement is a record of one body scan. -/
theorem mem_testRecords_mem_classOnce (stmt : PyStmt) (a : TestFuncRecord)
    (h : a ∈ testRecordsOfStmt stmt) : a ∈ classOnceRecords stmt := by
  unfold testRecordsOfStmt at h
  split at h
  · rcases List.mem_flatMap.mp h with ⟨b, _, hb⟩
    by_cases hc : isTestCaseBase b
    · simpa [classOnceRecords, hc] using hb
    · simp [hc] at hb
  · exact absurd h (List.not_mem_nil a)

/-- With at most one matching base, a statement's test records are either
empty or exactly one body scan. -/
theorem testRecords_eq_of_count_le_one (stmt : PyStmt) (h : matchingBaseCount stmt ≤ 1) :
    testRecordsOfStmt stmt = [] ∨ testRecordsOfStmt stmt = classOnceRecords stmt := by
  cases stmt with
  | ClassDef nm bases body ln =>
      have he : testRecordsOfStmt (PyStmt.ClassDef nm bases body ln)
          = (List.replicate (bases.countP isTestCaseBase) (classTestRecords body)).flatten := by
        simp only [testRecordsOfStmt]
        exact flatMap_guard_replicate bases (classTestRecords body)
      have hc : matchingBaseCount (PyStmt.ClassDef nm bases body ln)
          = bases.countP isTestCaseBase := rfl
      rw [hc] at h
      rcases Nat.le_one_iff_eq_zero_or_eq_one.mp h with h0 | h1
      · left
        rw [he, h0]
        simp
      · right
        rw [he, h1]
        simp [classOnceRecords]
  | Expr v => left; rfl
  | FunctionDef n ln => left; rfl
  | AsyncFunctionDef n ln => left; rfl
  | otherStmt => left; rfl

/-- A line sequence that is pairwise non-decreasing satisfies the spec's
order property (strict increase off equal lines). -/
theorem pairwise_le_linewise (ls : List Nat)
    (h : List.Pairwise (fun a b => a ≤ b) ls) : LinewiseOrdered ls :=
  h.imp (fun hab hne => lt_of_le_of_ne hab hne)

/-- Counterexample to C4: a class with two matching bases and two test methods
on lines 2 and 3 emits lines `[2, 3, 2, 3]` — the record at line 2 follows the
record at line 3 although the two matches do not share a source line. -/
theorem c4_counterexample :
    ((get_test_functions
        [PyStmt.ClassDef "T"
          [.Attribute (.Name "unittest") "TestCase",
           .Attribute (.Name "asynctest") "TestCase"]
          [.FunctionDef "test_a" 2, .FunctionDef "test_b" 3] 1]).map (fun r => r.line)
      = [2, 3, 2, 3])
    ∧ ¬ LinewiseOrdered ((get_test_functions
        [PyStmt.ClassDef "T"
          [.Attribute (.Name "unittest") "TestCase",
           .Attribute (.Name "asynctest") "TestCase"]
          [.FunctionDef "test_a" 2, .FunctionDef "test_b" 3] 1]).map (fun r => r.line)) := by
  constructor
  · rfl
  · intro h
    exact (by decide : ¬ List.Pairwise (fun a b : Nat => a ≠ b → a < b) [2, 3, 2, 3]) h

/-- Claim C4 amended: when the parser-provided line numbers are monotone in
source order (records of earlier statements never carry larger lines than
records of later ones, and each class body's method lines are non-decreasing),
the rule-call output is strictly line-increasing off shared lines, and so is
the test-function output **provided each class has at most one base matching
the `TestCase` shape** — a class with several matching bases repeats its body
records and breaks the order. -/
theorem c4_order_preservation :
    ∀ (m₁ m₂ : PyModule),
      List.Pairwise (fun s t => ∀ a ∈ ruleCallRecordsOfStmt s, ∀ b ∈ ruleCallRecordsOfStmt t,
          a.line ≤ b.line) m₁ →
      List.Pairwise (fun s t => ∀ a ∈ classOnceRecords s, ∀ b ∈ classOnceRecords t,
          a.line ≤ b.line) m₂ →
      (∀ stmt ∈ m₂, List.Pairwise (fun a b : TestFuncRecord => a.line ≤ b.line)
          (classOnceRecords stmt)) →
      (∀ stmt ∈ m₂, matchingBaseCount stmt ≤ 1) →
      LinewiseOrdered ((get_rule_calls m₁).map (fun r => r.line))
      ∧ LinewiseOrdered ((get_test_functions m₂).map (fun r => r.line)) := by
  intro m₁ m₂ h1 h2 h3 h4
  constructor
  · apply pairwise_le_linewise
    rw [get_rule_calls_eq, List.pairwise_map, List.pairwise_flatMap]
    exact ⟨fun s _ => ruleCallRecords_pairwise_le s, h1⟩
  · apply pairwise_le_linewise
    rw [get_test_functions_eq, List.pairwise_map, List.pairwise_flatMap]
    constructor
    · intro s hs
      rcases testRecords_eq_of_count_le_one s (h4 s hs) with h0 | h0 <;> rw [h0]
      · exact List.Pairwise.nil
      · exact h3 s hs
    · exact h2.imp (fun hst x hx y hy =>
        hst x (mem_testRecords_mem_classOnce _ x hx) y (mem_testRecords_mem_classOnce _ y hy))

/-- Witness for C4 (amended) on two concrete line-ordered modules. -/
theorem c4_order_preservation_witness :
    LinewiseOrdered ((get_rule_calls
        [PyStmt.Expr (.Call (.Name "python_test") [.mk (some "name") (.Str "calc_test")] 1),
         PyStmt.Expr (.Call (.Name "go_test") [.mk (some "name") (.Str "lib_test")] 5)]).map
        (fun r => r.line))
    ∧ LinewiseOrdered ((get_test_functions
        [PyStmt.ClassDef "A" [.Attribute (.Name "unittest") "TestCase"]
           [.FunctionDef "test_x" 2] 1,
         PyStmt.ClassDef "B" [.Attribute (.Name "asynctest") "TestCase"]
           [.AsyncFunctionDef "test_y" 6] 5]).map (fun r => r.line)) :=
  c4_order_preservation
    [PyStmt.Expr (.Call (.Name "python_test") [.mk (some "name") (.Str "calc_test")] 1),
     PyStmt.Expr (.Call (.Name "go_test") [.mk (some "name") (.Str "lib_test")] 5)]
    [PyStmt.ClassDef "A" [.Attribute (.Name "unittest") "TestCase"]
       [.FunctionDef "test_x" 2] 1,
     PyStmt.ClassDef "B" [.Attribute (.Name "asynctest") "TestCase"]
       [.AsyncFunctionDef "test_y" 6] 5]
    (by decide) (by decide) (by decide) (by decide)
